import Mathlib

/-
Verification development for the deck-generator content pipeline.
The Python sources (content_generator.py, presentation_engine.py) are
shallowly embedded below: JSON values become the inductive type Json,
the standard-library json.loads becomes an executable recursive-descent
reader over characters, and Python-level runtime errors (TypeError,
AttributeError, ValueError) become the error side of Except.  The model
covers the standard JSON grammar (objects, arrays, strings with escapes,
numbers, true/false/null); the CPython extensions NaN/Infinity, unicode
whitespace classes beyond ASCII, and surrogate-pair combining are outside
the inputs exercised here and are not modelled.
-/

namespace DeckGen

/-- JSON values as produced by json.loads: objects keep key order as an
association list, numbers are modelled as rationals. -/
inductive Json where
  | null : Json
  | bool : Bool → Json
  | num : Rat → Json
  | str : String → Json
  | arr : List Json → Json
  | obj : List (String × Json) → Json

/-- The opening-brace character, written by code to keep brace characters
out of string and character literals. -/
def braceL : Char := Char.ofNat 123

/-- The closing-brace character. -/
def braceR : Char := Char.ofNat 125

/-- Whitespace accepted between JSON tokens by json.loads: space, tab,
newline, carriage return. -/
def isJsonWs (c : Char) : Bool :=
  c = ' ' || c = '\t' || c = '\n' || c = '\r'

/-- ASCII whitespace as stripped by Python str.strip and matched by the
regex class backslash-s: space, tab, newline, carriage return, vertical
tab, form feed. -/
def isPySpace (c : Char) : Bool :=
  c = ' ' || c = '\t' || c = '\n' || c = '\r' || c = Char.ofNat 11 || c = Char.ofNat 12

/-- Drop leading JSON whitespace. -/
def skipWs (l : List Char) : List Char := l.dropWhile isJsonWs

/-- Python dict assignment d[k] = v on an insertion-ordered dict: an
existing key keeps its position and gets the new value, a new key is
appended at the end. -/
def setKey : List (String × Json) → String → Json → List (String × Json)
  | [], k, v => [(k, v)]
  | (k1, v1) :: rest, k, v =>
    if k1 = k then (k, v) :: rest else (k1, v1) :: setKey rest k v

/-- Python dict lookup d.get(k) / membership test k in d. -/
def lookupKey : List (String × Json) → String → Option Json
  | [], _ => none
  | (k1, v1) :: rest, k => if k1 = k then some v1 else lookupKey rest k

/-- Hexadecimal digit value, for unicode escapes in JSON strings. -/
def hexVal (c : Char) : Option Nat :=
  if c.isDigit then some (c.toNat - 48)
  else if 'a' ≤ c && c ≤ 'f' then some (c.toNat - 87)
  else if 'A' ≤ c && c ≤ 'F' then some (c.toNat - 55)
  else none

/-- Body of a JSON string after the opening quote: returns the decoded
string and the input remaining after the closing quote.  Escape sequences
follow the JSON grammar; unescaped control characters are rejected as in
the strict (default) mode of json.loads. -/
def parseStrAux : List Char → List Char → Option (String × List Char)
  | [], _ => none
  | c :: rest, acc =>
    if c = '\"' then some (String.mk acc.reverse, rest)
    else if c = '\\' then
      match rest with
      | [] => none
      | e :: rest2 =>
        if e = '\"' then parseStrAux rest2 ('\"' :: acc)
        else if e = '\\' then parseStrAux rest2 ('\\' :: acc)
        else if e = '/' then parseStrAux rest2 ('/' :: acc)
        else if e = 'b' then parseStrAux rest2 (Char.ofNat 8 :: acc)
        else if e = 'f' then parseStrAux rest2 (Char.ofNat 12 :: acc)
        else if e = 'n' then parseStrAux rest2 ('\n' :: acc)
        else if e = 'r' then parseStrAux rest2 ('\r' :: acc)
        else if e = 't' then parseStrAux rest2 ('\t' :: acc)
        else if e = 'u' then
          match rest2 with
          | a :: b :: c2 :: d :: rest3 =>
            match hexVal a, hexVal b, hexVal c2, hexVal d with
            | some ha, some hb, some hc, some hd =>
              parseStrAux rest3 (Char.ofNat (((ha * 16 + hb) * 16 + hc) * 16 + hd) :: acc)
            | _, _, _, _ => none
          | _ => none
        else none
    else if c.toNat < 32 then none
    else parseStrAux rest (c :: acc)

/-- Literal tail matcher for true, false, null. -/
def parseLit : List Char → List Char → Json → Option (Json × List Char)
  | [], r, j => some (j, r)
  | c :: cs, r, j =>
    match r with
    | d :: rs => if d = c then parseLit cs rs j else none
    | [] => none

/-- Decimal digits to a natural number. -/
def digitsToNat (l : List Char) : Nat :=
  l.foldl (fun acc c => acc * 10 + (c.toNat - 48)) 0

/-- A JSON number, following the JSON grammar (optional minus, integer
part without leading zeros, optional fraction, optional exponent),
returned as a rational together with the unconsumed input. -/
def parseNumber (l : List Char) : Option (Json × List Char) :=
  let signSplit : Bool × List Char :=
    match l with
    | c :: rest => if c = '-' then (true, rest) else (false, l)
    | [] => (false, l)
  let neg := signSplit.1
  let l1 := signSplit.2
  let intDigits := l1.takeWhile Char.isDigit
  let r1 := l1.dropWhile Char.isDigit
  match intDigits with
  | [] => none
  | d0 :: ds =>
    if d0 = '0' && !ds.isEmpty then none
    else
      let fracRes : Option (List Char × List Char) :=
        match r1 with
        | c :: rest =>
          if c = '.' then
            let fd := rest.takeWhile Char.isDigit
            if fd.isEmpty then none else some (fd, rest.dropWhile Char.isDigit)
          else some ([], r1)
        | [] => some ([], r1)
      match fracRes with
      | none => none
      | some (fracDigits, r2) =>
        let expRes : Option (Bool × List Char × List Char) :=
          match r2 with
          | c :: rest =>
            if c = 'e' || c = 'E' then
              let signSplit2 : Bool × List Char :=
                match rest with
                | s :: rr =>
                  if s = '+' then (false, rr)
                  else if s = '-' then (true, rr)
                  else (false, rest)
                | [] => (false, rest)
              let ed := signSplit2.2.takeWhile Char.isDigit
              if ed.isEmpty then none
              else some (signSplit2.1, ed, signSplit2.2.dropWhile Char.isDigit)
            else some (false, [], r2)
          | [] => some (false, [], r2)
        match expRes with
        | none => none
        | some (esign, expDigits, r3) =>
          let mantissa : Int :=
            (if neg then -1 else 1) * Int.ofNat (digitsToNat (intDigits ++ fracDigits))
          let e10 : Int :=
            (if esign then -Int.ofNat (digitsToNat expDigits)
             else Int.ofNat (digitsToNat expDigits)) - Int.ofNat fracDigits.length
          let q : Rat :=
            if e10 = 0 then (mantissa : Rat)
            else if 0 ≤ e10 then (mantissa : Rat) * ((10 : Rat) ^ e10.toNat)
            else (mantissa : Rat) / ((10 : Rat) ^ (-e10).toNat)
          some (Json.num q, r3)

mutual

/-- One JSON value, fuel-indexed recursive descent mirroring json.loads. -/
def parseVal : Nat → List Char → Option (Json × List Char)
  | 0, _ => none
  | n + 1, l =>
    match skipWs l with
    | [] => none
    | c :: rest =>
      if c = braceL then parseObjBody n rest
      else if c = '[' then parseArrBody n rest
      else if c = '\"' then
        match parseStrAux rest [] with
        | some (s, r) => some (Json.str s, r)
        | none => none
      else if c = 't' then parseLit ['r', 'u', 'e'] rest (Json.bool true)
      else if c = 'f' then parseLit ['a', 'l', 's', 'e'] rest (Json.bool false)
      else if c = 'n' then parseLit ['u', 'l', 'l'] rest Json.null
      else parseNumber (c :: rest)

/-- Object body after the opening brace. -/
def parseObjBody : Nat → List Char → Option (Json × List Char)
  | 0, _ => none
  | n + 1, l =>
    match skipWs l with
    | [] => none
    | c :: rest =>
      if c = braceR then some (Json.obj [], rest)
      else parseMembers n (c :: rest) []

/-- Members of an object; duplicate keys behave like repeated dict
assignment, as in CPython.  A trailing comma is rejected, as in
json.loads. -/
def parseMembers : Nat → List Char → List (String × Json) → Option (Json × List Char)
  | 0, _, _ => none
  | n + 1, l, acc =>
    match skipWs l with
    | [] => none
    | c :: rest =>
      if c = '\"' then
        match parseStrAux rest [] with
        | none => none
        | some (k, r1) =>
          match skipWs r1 with
          | c2 :: r2 =>
            if c2 = ':' then
              match parseVal n r2 with
              | none => none
              | some (v, r3) =>
                match skipWs r3 with
                | c3 :: r4 =>
                  if c3 = ',' then parseMembers n r4 (setKey acc k v)
                  else if c3 = braceR then some (Json.obj (setKey acc k v), r4)
                  else none
                | [] => none
            else none
          | [] => none
      else none

/-- Array body after the opening bracket. -/
def parseArrBody : Nat → List Char → Option (Json × List Char)
  | 0, _ => none
  | n + 1, l =>
    match skipWs l with
    | [] => none
    | c :: rest =>
      if c = ']' then some (Json.arr [], rest)
      else parseItems n (c :: rest) []

/-- Items of an array; a trailing comma is rejected, as in json.loads. -/
def parseItems : Nat → List Char → List Json → Option (Json × List Char)
  | 0, _, _ => none
  | n + 1, l, acc =>
    match parseVal n l with
    | none => none
    | some (v, r1) =>
      match skipWs r1 with
      | c :: r2 =>
        if c = ',' then parseItems n r2 (acc ++ [v])
        else if c = ']' then some (Json.arr (acc ++ [v]), r2)
        else none
      | [] => none

end

/-- Model of json.loads: parse one value, then require that only
whitespace remains (json.loads raises on extra data). -/
def json_loads (s : String) : Option Json :=
  match parseVal (s.length * 3 + 16) s.data with
  | some (j, rest) => if skipWs rest = [] then some j else none
  | none => none

/-- Python str.strip on a character list. -/
def pyStripL (l : List Char) : List Char :=
  ((l.dropWhile isPySpace).reverse.dropWhile isPySpace).reverse

/-- Python str.strip. -/
def pyStrip (s : String) : String := String.mk (pyStripL s.data)

/-- Does the input start with optional regex whitespace followed by a
closing brace or bracket?  This is the lookahead of the substitution
re.sub that deletes a comma standing before such a closer. -/
def wsThenClose (l : List Char) : Bool :=
  match l.dropWhile isPySpace with
  | c :: _ => c = braceR || c = ']'
  | [] => false

/-- Model of re.sub removing every comma that is followed by optional
whitespace and a closing brace or bracket (group 1 is kept): a
left-to-right scan deleting such commas. -/
def stripTrailingCommasL : List Char → List Char
  | [] => []
  | c :: rest =>
    if c = ',' && wsThenClose rest then stripTrailingCommasL rest
    else c :: stripTrailingCommasL rest

/-- String form of the trailing-comma stripper. -/
def stripTrailingCommas (s : String) : String :=
  String.mk (stripTrailingCommasL s.data)

/-- Model of re.search for a greedy brace-to-brace span with DOTALL: the
substring from the first opening brace to the last closing brace, when the
latter comes after the former. -/
def extractSpan (s : String) : Option String :=
  let l := s.data
  match l.findIdx? (fun c => c = braceL) with
  | none => none
  | some i =>
    match l.reverse.findIdx? (fun c => c = braceR) with
    | none => none
    | some jr =>
      let j := l.length - 1 - jr
      if i < j then some (String.mk ((l.drop i).take (j - i + 1))) else none

/-- Does the string start with an opening brace (str.startswith)? -/
def startsWithBrace (s : String) : Bool :=
  match s.data with
  | c :: _ => c = braceL
  | [] => false

/-- The try-block of safe_json_parse: direct parse, and when the result is
itself a string whose stripped form starts with an opening brace, a second
parse of that string (double-encoded output); failure of either parse
lands in the except-branch, modelled as none. -/
def tryDirect (s : String) : Option Json :=
  match json_loads s with
  | none => none
  | some (Json.str t) =>
    if startsWithBrace (pyStrip t) then json_loads t else some (Json.str t)
  | some j => some j

/-- The except-branch of safe_json_parse: extract the greedy brace span,
strip trailing commas before closers, and reparse. -/
def trySpan (s : String) : Option Json :=
  match extractSpan s with
  | none => none
  | some cand => json_loads (stripTrailingCommas cand)

/-- The fallback document of safe_json_parse, with the given overview
text. -/
def sentinelDoc (ov : String) : Json :=
  Json.obj [("title", Json.str "Parsing Failed"), ("overview", Json.str ov),
            ("slides", Json.arr []), ("conclusion", Json.str "")]

/-- Model of safe_json_parse (content_generator.py lines 33-50).  The
input none stands for a Python non-string argument; an empty or missing
input yields the sentinel; otherwise the direct parse, then the
span-repair parse are tried, and the parsed value is returned unchanged on
success; if everything fails the sentinel carries the first 500 characters
of the raw input as overview. -/
def safe_json_parse (raw : Option String) : Json :=
  match raw with
  | none => sentinelDoc ""
  | some s =>
    if s.data.isEmpty then sentinelDoc ""
    else
      match tryDirect s with
      | some j => j
      | none =>
        match trySpan s with
        | some j => j
        | none => sentinelDoc (String.mk (s.data.take 500))

/-- Python truthiness of a JSON value: empty containers, empty strings,
zero and None are falsy. -/
def pyTruthy : Json → Bool
  | Json.null => false
  | Json.bool b => b
  | Json.num q => decide (q ≠ 0)
  | Json.str s => !s.data.isEmpty
  | Json.arr xs => !xs.isEmpty
  | Json.obj kvs => !kvs.isEmpty

/-- Python len: defined on strings, lists and dicts, a TypeError
otherwise. -/
def pyLen : Json → Except String Nat
  | Json.str s => Except.ok s.length
  | Json.arr xs => Except.ok xs.length
  | Json.obj kvs => Except.ok kvs.length
  | _ => Except.error "TypeError"

/-- Python prefix slice x[:n]: defined on lists and strings, a TypeError
otherwise. -/
def pySlice : Json → Nat → Except String Json
  | Json.arr xs, n => Except.ok (Json.arr (xs.take n))
  | Json.str s, n => Except.ok (Json.str (String.mk (s.data.take n)))
  | _, _ => Except.error "TypeError"

/-- Python iteration: lists yield their items, strings their characters,
dicts their keys; other values raise TypeError. -/
def pyIter : Json → Except String (List Json)
  | Json.arr xs => Except.ok xs
  | Json.str s => Except.ok (s.data.map (fun c => Json.str (String.mk [c])))
  | Json.obj kvs => Except.ok (kvs.map (fun kv => Json.str kv.fst))
  | _ => Except.error "TypeError"

/-- Error-propagating map over a list, the shape of a Python for-loop
whose body may raise. -/
def mapExcept {α β : Type} (f : α → Except String β) : List α → Except String (List β)
  | [] => Except.ok []
  | x :: xs =>
    match f x with
    | Except.error e => Except.error e
    | Except.ok y =>
      match mapExcept f xs with
      | Except.error e => Except.error e
      | Except.ok ys => Except.ok (y :: ys)

/-- The synthesized category labels Item 1 .. Item n. -/
def mkItems (n : Nat) : List Json :=
  (List.range n).map (fun i => Json.str ("Item " ++ toString (i + 1)))

/-- The sources value assigned by the backfill: the first two facts when
the fact list is truthy, else the generic fallback label. -/
def backfillSources (facts : List String) : Json :=
  match facts with
  | [] => Json.arr [Json.str "General industry reports"]
  | _ => Json.arr ((facts.take 2).map Json.str)

/-- Is this optional value present and a Python list? -/
def isArrOpt : Option Json → Bool
  | some (Json.arr _) => true
  | _ => false

/-- Per-topic sources backfill (content_generator.py lines 125-127): when
the key sources is absent or its value is not a list, it is assigned the
backfill value; a non-dict topic raises TypeError at the membership test
or the assignment. -/
def fixTopic (facts : List String) : Json → Except String Json
  | Json.obj kvs =>
    if isArrOpt (lookupKey kvs "sources") then Except.ok (Json.obj kvs)
    else Except.ok (Json.obj (setKey kvs "sources" (backfillSources facts)))
  | _ => Except.error "TypeError"

/-- Topic-list coercion of the polish pass (content_generator.py lines
120-124): a bare dict becomes a one-element list, a non-list non-dict
becomes the empty list. -/
def coerceTopics : Json → List Json
  | Json.obj kvs => [Json.obj kvs]
  | Json.arr xs => xs
  | _ => []

/-- Per-slide step of the sources backfill (content_generator.py lines
119-128): read and coerce the topics, fix each topic, and write the
(possibly new) list back under the key topics; a non-dict slide raises
AttributeError at slide.get. -/
def fixSlide (facts : List String) : Json → Except String Json
  | Json.obj kvs =>
    match mapExcept (fixTopic facts)
        (coerceTopics ((lookupKey kvs "topics").getD (Json.arr []))) with
    | Except.ok ts2 => Except.ok (Json.obj (setKey kvs "topics" (Json.arr ts2)))
    | Except.error e => Except.error e
  | _ => Except.error "AttributeError"

/-- Iteration over the slides value held under the slides key of the dict
kvs, backfilling every topic of every slide: a list is traversed and the
fixed list written back; iterating a non-list either yields string items,
whose get raises AttributeError, or raises TypeError outright; an empty
string or dict iterates zero times and leaves the dict untouched. -/
def fixSlides (facts : List String) (kvs : List (String × Json)) : Json → Except String Json
  | Json.arr xs =>
    match mapExcept (fixSlide facts) xs with
    | Except.ok xs2 => Except.ok (Json.obj (setKey kvs "slides" (Json.arr xs2)))
    | Except.error e => Except.error e
  | Json.str s =>
    if s.data.isEmpty then Except.ok (Json.obj kvs) else Except.error "AttributeError"
  | Json.obj kvs2 =>
    match kvs2 with
    | [] => Except.ok (Json.obj kvs)
    | _ => Except.error "AttributeError"
  | _ => Except.error "TypeError"

/-- The reachable normalization of the polish pass (content_generator.py
lines 117-128): when the parsed value is a dict with a slides key, iterate
the slides and backfill sources in every topic; any other value is
returned unchanged. -/
def ensureSources (facts : List String) (polished : Json) : Except String Json :=
  match polished with
  | Json.obj kvs =>
    match lookupKey kvs "slides" with
    | none => Except.ok (Json.obj kvs)
    | some slides => fixSlides facts kvs slides
  | _ => Except.ok polished

/-- The chart auto-fix block of content_generator.py lines 136-151,
translated as if it were reachable: synthesize Item labels when values are
present and categories empty, else truncate both to the shorter length on
a mismatch.  The second condition reads the local categories variable
bound before the first fix, exactly as the Python block does. -/
def chartAutoFix : Json → Except String Json
  | Json.obj kvs =>
    let values := (lookupKey kvs "values").getD (Json.arr [])
    let categories := (lookupKey kvs "categories").getD (Json.arr [])
    if pyTruthy values && !pyTruthy categories then
      match pyLen values with
      | Except.ok n =>
        Except.ok (Json.obj (setKey kvs "categories" (Json.arr (mkItems n))))
      | Except.error e => Except.error e
    else if pyTruthy categories && pyTruthy values then
      match pyLen categories with
      | Except.error e => Except.error e
      | Except.ok lc =>
        match pyLen values with
        | Except.error e => Except.error e
        | Except.ok lv =>
          if lc = lv then Except.ok (Json.obj kvs)
          else
            match pySlice categories (min lc lv) with
            | Except.error e => Except.error e
            | Except.ok c2 =>
              match pySlice values (min lc lv) with
              | Except.error e => Except.error e
              | Except.ok v2 =>
                Except.ok (Json.obj (setKey (setKey kvs "categories" c2) "values" v2))
    else Except.ok (Json.obj kvs)
  | _ => Except.error "AttributeError"

/-- The chart-type test of presentation_engine.py line 67: a bar chart is
chosen exactly when the type value equals the string bar, anything else
falls back to a line chart. -/
def chartIsBar (kvs : List (String × Json)) : Bool :=
  match lookupKey kvs "type" with
  | some (Json.str t) => t = "bar"
  | _ => false

/-- The chart data handed to the renderer when a chart is accepted. -/
structure RenderedChart where
  categories : Json
  values : Json
  seriesTitle : Json
  isBar : Bool

/-- Body of the try-block of the renderer chart routine
(presentation_engine.py lines 50-68): read categories and values,
synthesize Item labels when values are present and categories falsy, then
skip (ok none) unless both are truthy with equal length; otherwise build
the chart data with the series title and chart type. -/
def renderChartE (chart : Json) : Except String (Option RenderedChart) :=
  match chart with
  | Json.obj kvs =>
    let categories := (lookupKey kvs "categories").getD (Json.arr [])
    let values := (lookupKey kvs "values").getD (Json.arr [])
    let catsE : Except String Json :=
      if pyTruthy values && !pyTruthy categories then
        match pyLen values with
        | Except.ok n => Except.ok (Json.arr (mkItems n))
        | Except.error e => Except.error e
      else Except.ok categories
    match catsE with
    | Except.error e => Except.error e
    | Except.ok cats =>
      if !pyTruthy cats || !pyTruthy values then Except.ok none
      else
        match pyLen cats with
        | Except.error e => Except.error e
        | Except.ok lc =>
          match pyLen values with
          | Except.error e => Except.error e
          | Except.ok lv =>
            if lc = lv then
              Except.ok (some
                { categories := cats
                  values := values
                  seriesTitle := (lookupKey kvs "title").getD (Json.str "Series")
                  isBar := chartIsBar kvs })
            else Except.ok none
  | _ => Except.error "AttributeError"

/-- The renderer chart routine with its surrounding try-except: any raised
error is logged and the chart skipped, so the observable result is either
a rendered chart or nothing. -/
def renderChart (chart : Json) : Option RenderedChart :=
  match renderChartE chart with
  | Except.ok r => r
  | Except.error _ => none

/-- One visual slide as handed to the renderer: its title text and the
topic dicts rendered into its body. -/
structure SlideDescriptor where
  title : Json
  topics : List Json

/-- Model of re.split on the sentence punctuation class: n separators
yield n+1 parts. -/
def splitPunct : List Char → List (List Char)
  | [] => [[]]
  | c :: rest =>
    let r := splitPunct rest
    if c = '.' || c = '?' || c = '!' then [] :: r
    else
      match r with
      | [] => [[c]]
      | g :: gs => (c :: g) :: gs

/-- Model of the overview splitter (presentation_engine.py lines 43-46):
split on sentence punctuation, strip, drop empties, take the first
maxLines; when nothing remains, the whole original text is the single
segment. -/
def splitOverview (text : String) (maxLines : Nat) : List String :=
  let sentences :=
    ((splitPunct text.data).map (fun p => String.mk (pyStripL p))).filter
      (fun s => !s.data.isEmpty)
  match sentences with
  | [] => [text]
  | _ => sentences.take maxLines

/-- The synthetic topic dict used for the overview and conclusion slides. -/
def bulletsTopic (bullets : List Json) : Json :=
  Json.obj [("subtitle", Json.str ""), ("bullets", Json.arr bullets),
            ("sources", Json.arr [])]

/-- One content slide of the slide mapper (presentation_engine.py lines
179-186): title with default, topics with default, and any non-list topics
value wrapped into a one-element list; a non-dict slide entry raises
AttributeError at slide_data.get. -/
def mapContentSlide : Json → Except String SlideDescriptor
  | Json.obj kvs =>
    Except.ok
      { title := (lookupKey kvs "title").getD (Json.str "Slide")
        topics :=
          match (lookupKey kvs "topics").getD (Json.arr []) with
          | Json.arr xs => xs
          | other => [other] }
  | _ => Except.error "AttributeError"

/-- The slide mapper up to and excluding the conclusion block
(presentation_engine.py lines 162-186): title slide, overview slide split
into at most three sentence segments, then one descriptor per entry of the
slides value; a non-string overview raises TypeError inside re.split and a
non-dict root raises AttributeError at content.get. -/
def mapDeckBase (content : Json) : Except String (List SlideDescriptor) :=
  match content with
  | Json.obj kvs =>
    match (lookupKey kvs "overview").getD (Json.str "") with
    | Json.str ov =>
      match pyIter ((lookupKey kvs "slides").getD (Json.arr [])) with
      | Except.ok items =>
        match mapExcept mapContentSlide items with
        | Except.ok ss =>
          Except.ok
            ({ title := (lookupKey kvs "title").getD (Json.str "Untitled Presentation")
               topics := [] } ::
             { title := Json.str "Overview"
               topics := [bulletsTopic ((splitOverview ov 3).map Json.str)] } :: ss)
        | Except.error e => Except.error e
      | Except.error e => Except.error e
    | _ => Except.error "TypeError"
  | _ => Except.error "AttributeError"

/-- The conclusion descriptor (presentation_engine.py lines 190-193): a
slide titled Conclusion whose body is one topic with the single bullet
holding the conclusion value. -/
def conclusionDescriptor (cj : Json) : SlideDescriptor :=
  { title := Json.str "Conclusion", topics := [bulletsTopic [cj]] }

/-- The full slide mapper (presentation_engine.py create_presentation,
without the file write): the base slides, followed by the conclusion
descriptor exactly when content.get of conclusion is truthy. -/
def mapDeck (content : Json) : Except String (List SlideDescriptor) :=
  match mapDeckBase content with
  | Except.error e => Except.error e
  | Except.ok base =>
    match content with
    | Json.obj kvs =>
      if pyTruthy ((lookupKey kvs "conclusion").getD Json.null) then
        Except.ok (base ++ [conclusionDescriptor ((lookupKey kvs "conclusion").getD Json.null)])
      else Except.ok base
    | _ => Except.error "AttributeError"

/-- Outcome of one generator-client call: the create call may raise at the
transport level, the response content may be missing or malformed so that
the content access raises, or the content text is obtained. -/
inductive CallResult where
  | transportError (msg : String) : CallResult
  | badContent (msg : String) : CallResult
  | content (text : String) : CallResult

/-- Model of the draft helper (content_generator.py lines 62-74): a
transport error propagates; a failed content access is caught and becomes
a sentinel dict recording the exception; otherwise the stripped content is
repaired by safe_json_parse. -/
def callLlmAndParse (r : CallResult) : Except String Json :=
  match r with
  | CallResult.transportError e => Except.error e
  | CallResult.badContent e =>
    Except.ok (Json.obj
      [("title", Json.str "Parsing Failed"),
       ("overview", Json.str ("Bad LLM response: " ++ e)),
       ("slides", Json.arr []), ("conclusion", Json.str "")])
  | CallResult.content raw => Except.ok (safe_json_parse (some (pyStrip raw)))

/-- The parsed polish response (content_generator.py lines 107-115): strip
the content, narrow to the greedy brace span when one exists, and repair. -/
def polishParsed (raw0 : String) : Json :=
  let raw1 := pyStrip raw0
  match extractSpan raw1 with
  | some m => safe_json_parse (some m)
  | none => safe_json_parse (some raw1)

/-- Model of the polish pass (content_generator.py lines 100-130): a
transport error on the create call propagates; a failed content access is
caught and the draft returned unpolished; otherwise the response is parsed
and the sources backfill runs, whose own runtime errors propagate. -/
def polishContent (r : CallResult) (draft : Json) (webFacts : List String) :
    Except String Json :=
  match r with
  | CallResult.transportError e => Except.error e
  | CallResult.badContent _ => Except.ok draft
  | CallResult.content raw0 => ensureSources webFacts (polishParsed raw0)

/-- Model of generate_content (content_generator.py lines 156-231) with
the two generator calls supplied as outcomes: an empty stripped topic
raises ValueError, a draft obtained from the first call is polished by the
second. -/
def generateContent (topic : String) (draftCall polishCall : CallResult)
    (webFacts : List String) : Except String Json :=
  if (pyStrip topic).data.isEmpty then Except.error "ValueError"
  else
    match callLlmAndParse draftCall with
    | Except.error e => Except.error e
    | Except.ok draft => polishContent polishCall draft webFacts

/-- The chart value of a topic dict, none for anything else. -/
def topicChart : Json → Option Json
  | Json.obj kvs => lookupKey kvs "chart"
  | _ => none

/-- The chart values of the (coerced) topics of one slide. -/
def chartsOfSlide : Json → List (Option Json)
  | Json.obj kvs =>
    (coerceTopics ((lookupKey kvs "topics").getD (Json.arr []))).map topicChart
  | _ => []

/-- The chart values of every topic of every slide of a document. -/
def chartsOf (j : Json) : List (List (Option Json)) :=
  match j with
  | Json.obj kvs =>
    match lookupKey kvs "slides" with
    | some (Json.arr xs) => xs.map chartsOfSlide
    | _ => []
  | _ => []

/-- Is this optional value present and a Python string? -/
def isStrOpt : Option Json → Bool
  | some (Json.str _) => true
  | _ => false

/-- Does the value carry the four top-level document fields with their
shallow container types: text title, text overview, sequence slides, text
conclusion? -/
def hasDocShape (j : Json) : Bool :=
  match j with
  | Json.obj kvs =>
    isStrOpt (lookupKey kvs "title") && isStrOpt (lookupKey kvs "overview") &&
    isArrOpt (lookupKey kvs "slides") && isStrOpt (lookupKey kvs "conclusion")
  | _ => false

/-! Helper lemmas about the dict model. -/

theorem lookupKey_setKey_self (l : List (String × Json)) (k : String) (v : Json) :
    lookupKey (setKey l k v) k = some v := by
  induction l with
  | nil => simp [setKey, lookupKey]
  | cons p rest ih =>
    obtain ⟨k1, v1⟩ := p
    by_cases h : k1 = k
    · simp [setKey, h, lookupKey]
    · simp [setKey, h, lookupKey, ih]

theorem lookupKey_setKey_ne (l : List (String × Json)) (k k' : String) (v : Json)
    (hne : k' ≠ k) : lookupKey (setKey l k v) k' = lookupKey l k' := by
  induction l with
  | nil =>
    have h2 : ¬k = k' := fun h2 => hne h2.symm
    simp [setKey, lookupKey, h2]
  | cons p rest ih =>
    obtain ⟨k1, v1⟩ := p
    by_cases h : k1 = k
    · subst h
      have h2 : ¬k1 = k' := fun h2 => hne (h2.symm)
      simp [setKey, lookupKey, h2]
    · simp only [setKey, if_neg h, lookupKey]
      by_cases h3 : k1 = k'
      · simp [h3]
      · simp [h3, ih]

theorem setKey_setKey_self (l : List (String × Json)) (k : String) (v w : Json) :
    setKey (setKey l k v) k w = setKey l k w := by
  induction l with
  | nil => simp [setKey]
  | cons p rest ih =>
    obtain ⟨k1, v1⟩ := p
    by_cases h : k1 = k
    · simp [setKey, h]
    · simp [setKey, h, ih]

theorem mapExcept_idem {α : Type} (f : α → Except String α)
    (hf : ∀ a b, f a = Except.ok b → f b = Except.ok b) :
    ∀ l l2, mapExcept f l = Except.ok l2 → mapExcept f l2 = Except.ok l2 := by
  intro l
  induction l with
  | nil =>
    intro l2 h
    simp only [mapExcept] at h
    cases h
    simp [mapExcept]
  | cons x xs ih =>
    intro l2 h
    simp only [mapExcept] at h
    cases hx : f x with
    | error e => rw [hx] at h; cases h
    | ok y =>
      rw [hx] at h
      cases hxs : mapExcept f xs with
      | error e => rw [hxs] at h; cases h
      | ok ys =>
        rw [hxs] at h
        cases h
        simp only [mapExcept, hf x y hx, ih ys hxs]

theorem mapExcept_map {α β : Type} (f : α → Except String α) (g : α → β)
    (hg : ∀ a b, f a = Except.ok b → g b = g a) :
    ∀ l l2, mapExcept f l = Except.ok l2 → l2.map g = l.map g := by
  intro l
  induction l with
  | nil =>
    intro l2 h
    simp only [mapExcept] at h
    cases h
    rfl
  | cons x xs ih =>
    intro l2 h
    simp only [mapExcept] at h
    cases hx : f x with
    | error e => rw [hx] at h; cases h
    | ok y =>
      rw [hx] at h
      cases hxs : mapExcept f xs with
      | error e => rw [hxs] at h; cases h
      | ok ys =>
        rw [hxs] at h
        cases h
        simp only [List.map, hg x y hx, ih ys hxs]

/-! Helper lemmas about the normalization passes. -/

theorem backfillSources_isArr (facts : List String) :
    isArrOpt (some (backfillSources facts)) = true := by
  cases facts <;> rfl

theorem fixTopic_idem (facts : List String) :
    ∀ t t2, fixTopic facts t = Except.ok t2 → fixTopic facts t2 = Except.ok t2 := by
  intro t t2 h
  cases t with
  | obj kvs =>
    by_cases hs : isArrOpt (lookupKey kvs "sources") = true
    · simp only [fixTopic, if_pos hs] at h
      cases h
      simp [fixTopic, hs]
    · simp only [fixTopic, if_neg hs] at h
      cases h
      simp [fixTopic, lookupKey_setKey_self, backfillSources_isArr]
  | null => cases h
  | bool b => cases h
  | num q => cases h
  | str s => cases h
  | arr xs => cases h

theorem fixTopic_chart (facts : List String) :
    ∀ t t2, fixTopic facts t = Except.ok t2 → topicChart t2 = topicChart t := by
  intro t t2 h
  cases t with
  | obj kvs =>
    by_cases hs : isArrOpt (lookupKey kvs "sources") = true
    · simp only [fixTopic, if_pos hs] at h
      cases h
      rfl
    · simp only [fixTopic, if_neg hs] at h
      cases h
      simp [topicChart, lookupKey_setKey_ne _ _ _ _ (by decide : "chart" ≠ "sources")]
  | null => cases h
  | bool b => cases h
  | num q => cases h
  | str s => cases h
  | arr xs => cases h

theorem fixSlide_idem (facts : List String) :
    ∀ s s2, fixSlide facts s = Except.ok s2 → fixSlide facts s2 = Except.ok s2 := by
  intro s s2 h
  cases s with
  | obj kvs =>
    simp only [fixSlide] at h
    cases hm : mapExcept (fixTopic facts)
        (coerceTopics ((lookupKey kvs "topics").getD (Json.arr []))) with
    | error e => rw [hm] at h; cases h
    | ok ts2 =>
      rw [hm] at h
      cases h
      simp only [fixSlide, lookupKey_setKey_self, Option.getD_some, coerceTopics,
        mapExcept_idem (fixTopic facts) (fixTopic_idem facts) _ ts2 hm,
        setKey_setKey_self]
  | null => cases h
  | bool b => cases h
  | num q => cases h
  | str s => cases h
  | arr xs => cases h

theorem fixSlide_charts (facts : List String) :
    ∀ s s2, fixSlide facts s = Except.ok s2 → chartsOfSlide s2 = chartsOfSlide s := by
  intro s s2 h
  cases s with
  | obj kvs =>
    simp only [fixSlide] at h
    cases hm : mapExcept (fixTopic facts)
        (coerceTopics ((lookupKey kvs "topics").getD (Json.arr []))) with
    | error e => rw [hm] at h; cases h
    | ok ts2 =>
      rw [hm] at h
      cases h
      simp only [chartsOfSlide, lookupKey_setKey_self, Option.getD_some, coerceTopics]
      exact mapExcept_map (fixTopic facts) topicChart (fixTopic_chart facts) _ ts2 hm
  | null => cases h
  | bool b => cases h
  | num q => cases h
  | str s => cases h
  | arr xs => cases h

theorem ensureSources_idem (facts : List String) :
    ∀ j j2, ensureSources facts j = Except.ok j2 → ensureSources facts j2 = Except.ok j2 := by
  intro j j2 h
  cases j with
  | obj kvs =>
    cases hs : lookupKey kvs "slides" with
    | none =>
      simp only [ensureSources, hs] at h
      cases h
      simp [ensureSources, hs]
    | some slides =>
      simp only [ensureSources, hs] at h
      cases slides with
      | arr xs =>
        simp only [fixSlides] at h
        cases hm : mapExcept (fixSlide facts) xs with
        | error e => rw [hm] at h; cases h
        | ok xs2 =>
          rw [hm] at h
          cases h
          simp only [ensureSources, lookupKey_setKey_self, fixSlides,
            mapExcept_idem (fixSlide facts) (fixSlide_idem facts) _ xs2 hm,
            setKey_setKey_self]
      | str s =>
        simp only [fixSlides] at h
        by_cases he : s.data.isEmpty = true
        · rw [if_pos he] at h
          cases h
          simp [ensureSources, hs, fixSlides, he]
        · rw [if_neg he] at h
          cases h
      | obj kvs2 =>
        simp only [fixSlides] at h
        cases kvs2 with
        | nil => cases h; simp [ensureSources, hs, fixSlides]
        | cons p rest => cases h
      | null => cases h
      | bool b => cases h
      | num q => cases h
  | null => cases h; rfl
  | bool b => cases h; rfl
  | num q => cases h; rfl
  | str s => cases h; rfl
  | arr xs => cases h; rfl

theorem ensureSources_charts (facts : List String) :
    ∀ j j2, ensureSources facts j = Except.ok j2 → chartsOf j2 = chartsOf j := by
  intro j j2 h
  cases j with
  | obj kvs =>
    cases hs : lookupKey kvs "slides" with
    | none =>
      simp only [ensureSources, hs] at h
      cases h
      rfl
    | some slides =>
      simp only [ensureSources, hs] at h
      cases slides with
      | arr xs =>
        simp only [fixSlides] at h
        cases hm : mapExcept (fixSlide facts) xs with
        | error e => rw [hm] at h; cases h
        | ok xs2 =>
          rw [hm] at h
          cases h
          simp only [chartsOf, lookupKey_setKey_self, hs]
          exact mapExcept_map (fixSlide facts) chartsOfSlide (fixSlide_charts facts) _ xs2 hm
      | str s =>
        simp only [fixSlides] at h
        by_cases he : s.data.isEmpty = true
        · rw [if_pos he] at h
          cases h
          simp [chartsOf, hs]
        · rw [if_neg he] at h
          cases h
      | obj kvs2 =>
        simp only [fixSlides] at h
        cases kvs2 with
        | nil => cases h; simp [chartsOf, hs]
        | cons p rest => cases h
      | null => cases h
      | bool b => cases h
      | num q => cases h
  | null => cases h; rfl
  | bool b => cases h; rfl
  | num q => cases h; rfl
  | str s => cases h; rfl
  | arr xs => cases h; rfl

/-! Helper lemmas about lengths, truthiness and the chart fixers. -/

theorem mkItems_length (n : Nat) : (mkItems n).length = n := by
  simp [mkItems]

theorem mkItems_isEmpty (n : Nat) (h : 1 ≤ n) : (mkItems n).isEmpty = false := by
  cases hm : mkItems n with
  | nil =>
    have hl := mkItems_length n
    rw [hm] at hl
    simp at hl
    omega
  | cons a l => rfl

theorem mkItems_truthy (n : Nat) (h : 1 ≤ n) : pyTruthy (Json.arr (mkItems n)) = true := by
  simp [pyTruthy, mkItems_isEmpty n h]

theorem pyLen_pos (v : Json) (n : Nat) (ht : pyTruthy v = true) (hl : pyLen v = Except.ok n) :
    1 ≤ n := by
  cases v with
  | str s =>
    simp only [pyLen] at hl
    cases hl
    cases hd : s.data with
    | nil => simp [pyTruthy, hd] at ht
    | cons c cs =>
      show 1 ≤ s.data.length
      rw [hd]
      simp
  | arr xs =>
    simp only [pyLen] at hl
    cases hl
    cases xs with
    | nil => simp [pyTruthy] at ht
    | cons x l => simp
  | obj kvs =>
    simp only [pyLen] at hl
    cases hl
    cases kvs with
    | nil => simp [pyTruthy] at ht
    | cons p l => simp
  | null => cases hl
  | bool b => cases hl
  | num q => cases hl

theorem pyTruthy_of_len (v : Json) (n : Nat) (hl : pyLen v = Except.ok n) :
    pyTruthy v = decide (1 ≤ n) := by
  cases v with
  | str s =>
    simp only [pyLen] at hl
    cases hl
    show (!s.data.isEmpty) = decide (1 ≤ s.data.length)
    cases s.data <;> simp
  | arr xs =>
    simp only [pyLen] at hl
    cases hl
    cases xs <;> simp [pyTruthy]
  | obj kvs =>
    simp only [pyLen] at hl
    cases hl
    cases kvs <;> simp [pyTruthy]
  | null => cases hl
  | bool b => cases hl
  | num q => cases hl

theorem pySlice_len (v : Json) (k : Nat) (w : Json) (m : Nat)
    (hs : pySlice v k = Except.ok w) (hl : pyLen v = Except.ok m) :
    pyLen w = Except.ok (min k m) := by
  cases v with
  | arr xs =>
    simp only [pySlice] at hs
    cases hs
    simp only [pyLen] at hl
    cases hl
    simp [pyLen, List.length_take]
  | str s =>
    simp only [pySlice] at hs
    cases hs
    simp only [pyLen] at hl
    cases hl
    show Except.ok (s.data.take k).length = Except.ok (min k s.data.length)
    simp [List.length_take]
  | obj kvs => cases hs
  | null => cases hs
  | bool b => cases hs
  | num q => cases hs

theorem pyLen_mkItems (n : Nat) : pyLen (Json.arr (mkItems n)) = Except.ok n := by
  simp [pyLen, mkItems_length]

theorem chartAutoFix_idem :
    ∀ c c2, chartAutoFix c = Except.ok c2 → chartAutoFix c2 = Except.ok c2 := by
  intro c c2 h
  cases c with
  | obj kvs =>
    by_cases h1 : (pyTruthy ((lookupKey kvs "values").getD (Json.arr [])) &&
        !pyTruthy ((lookupKey kvs "categories").getD (Json.arr []))) = true
    · simp only [chartAutoFix, h1, if_true] at h
      cases hlen : pyLen ((lookupKey kvs "values").getD (Json.arr [])) with
      | error e => rw [hlen] at h; cases h
      | ok n =>
        rw [hlen] at h
        cases h
        rw [Bool.and_eq_true] at h1
        obtain ⟨hvt, hcf⟩ := h1
        have hn : 1 ≤ n := pyLen_pos _ n hvt hlen
        have e1 : lookupKey (setKey kvs "categories" (Json.arr (mkItems n))) "values" =
            lookupKey kvs "values" := lookupKey_setKey_ne _ _ _ _ (by decide)
        have e2 : lookupKey (setKey kvs "categories" (Json.arr (mkItems n))) "categories" =
            some (Json.arr (mkItems n)) := lookupKey_setKey_self _ _ _
        simp [chartAutoFix, e1, e2, mkItems_truthy n hn, hvt, pyLen_mkItems, hlen]
    · rw [Bool.not_eq_true] at h1
      by_cases h2 : (pyTruthy ((lookupKey kvs "categories").getD (Json.arr [])) &&
          pyTruthy ((lookupKey kvs "values").getD (Json.arr []))) = true
      · simp only [chartAutoFix, h1, h2, Bool.false_eq_true, if_false, if_true] at h
        cases hlc : pyLen ((lookupKey kvs "categories").getD (Json.arr [])) with
        | error e => simp only [hlc] at h; cases h
        | ok lc =>
          cases hlv : pyLen ((lookupKey kvs "values").getD (Json.arr [])) with
          | error e => simp only [hlc, hlv] at h; cases h
          | ok lv =>
            simp only [hlc, hlv] at h
            by_cases hne : lc = lv
            · rw [if_pos hne] at h
              cases h
              simp [chartAutoFix, h1, h2, hlc, hlv, hne]
            · rw [if_neg hne] at h
              cases hsc : pySlice ((lookupKey kvs "categories").getD (Json.arr []))
                  (min lc lv) with
              | error e => simp only [hsc] at h; cases h
              | ok cs2 =>
                simp only [hsc] at h
                cases hsv : pySlice ((lookupKey kvs "values").getD (Json.arr []))
                    (min lc lv) with
                | error e => simp only [hsv] at h; cases h
                | ok vs2 =>
                  simp only [hsv] at h
                  cases h
                  rw [Bool.and_eq_true] at h2
                  obtain ⟨hct, hvt⟩ := h2
                  have hlc1 : 1 ≤ lc := pyLen_pos _ _ hct hlc
                  have hlv1 : 1 ≤ lv := pyLen_pos _ _ hvt hlv
                  have hn : 1 ≤ min lc lv := Nat.le_min.mpr ⟨hlc1, hlv1⟩
                  have hl_cs : pyLen cs2 = Except.ok (min lc lv) := by
                    have := pySlice_len _ _ _ _ hsc hlc
                    rwa [Nat.min_eq_left (Nat.min_le_left lc lv)] at this
                  have hl_vs : pyLen vs2 = Except.ok (min lc lv) := by
                    have := pySlice_len _ _ _ _ hsv hlv
                    rwa [Nat.min_eq_left (Nat.min_le_right lc lv)] at this
                  have hcs_t : pyTruthy cs2 = true := by
                    rw [pyTruthy_of_len _ _ hl_cs]
                    exact decide_eq_true hn
                  have hvs_t : pyTruthy vs2 = true := by
                    rw [pyTruthy_of_len _ _ hl_vs]
                    exact decide_eq_true hn
                  have eV : lookupKey (setKey (setKey kvs "categories" cs2) "values" vs2)
                      "values" = some vs2 := lookupKey_setKey_self _ _ _
                  have eC : lookupKey (setKey (setKey kvs "categories" cs2) "values" vs2)
                      "categories" = some cs2 := by
                    rw [lookupKey_setKey_ne _ _ _ _ (by decide)]
                    exact lookupKey_setKey_self _ _ _
                  simp [chartAutoFix, eV, eC, hcs_t, hvs_t, hl_cs, hl_vs]
      · rw [Bool.not_eq_true] at h2
        simp only [chartAutoFix, h1, h2, Bool.false_eq_true, if_false] at h
        cases h
        simp [chartAutoFix, h1, h2]
  | null => cases h
  | bool b => cases h
  | num q => cases h
  | str s => cases h
  | arr xs => cases h

/-! Claim theorems and their witnesses. -/

/-- C1 counterexample: repairing the parseable text of an empty JSON
object returns that empty object unchanged, which has none of the four
top-level document fields, refuting the claim that every repair result
carries all four correctly-typed fields. -/
theorem c1_repair_shape_cx :
    safe_json_parse (some "\x7b\x7d") = Json.obj [] ∧ hasDocShape (Json.obj []) = false :=
  ⟨rfl, rfl⟩

/-- C1 (amended): safe_json_parse is total and returns the sentinel
document, which carries all four fields with correct shallow types,
exactly when the input is missing, empty or unparseable by both the direct
and the span-repair strategies; when a parse succeeds its value is
returned unchanged and need not have document shape. -/
theorem c1_repair_shape_amended :
    ∀ raw : Option String,
      hasDocShape (safe_json_parse raw) = true ∨
      (∃ s, raw = some s ∧ s.data.isEmpty = false ∧
        (tryDirect s = some (safe_json_parse raw) ∨
          (tryDirect s = none ∧ trySpan s = some (safe_json_parse raw)))) := by
  intro raw
  cases raw with
  | none => exact Or.inl rfl
  | some s =>
    by_cases he : s.data.isEmpty = true
    · left
      simp only [safe_json_parse, he, if_true]
      rfl
    · have he2 : s.data.isEmpty = false := by
        cases hb : s.data.isEmpty
        · rfl
        · exact absurd hb he
      cases hd : tryDirect s with
      | some j =>
        right
        refine ⟨s, rfl, he2, Or.inl ?_⟩
        simp [safe_json_parse, he2, hd]
      | none =>
        cases ht : trySpan s with
        | some j =>
          right
          refine ⟨s, rfl, he2, Or.inr ⟨hd, ?_⟩⟩
          simp [safe_json_parse, he2, hd, ht]
        | none =>
          left
          have : safe_json_parse (some s) = sentinelDoc (String.mk (s.data.take 500)) := by
            simp [safe_json_parse, he2, hd, ht]
          rw [this]
          rfl

/-- C2 (code_bug): a chart with four categories and two values is skipped
by the reachable renderer code rather than truncated and rendered, while
the chart auto-fix block sitting after the unconditional return of the
polish pass would have truncated both sequences to length two, after which
the renderer would accept the chart. -/
theorem c2_chart_mismatch_dropped :
    renderChart (Json.obj [("categories", Json.arr [Json.str "a", Json.str "b",
        Json.str "c", Json.str "d"]), ("values", Json.arr [Json.num 1, Json.num 2])]) =
      none ∧
    chartAutoFix (Json.obj [("categories", Json.arr [Json.str "a", Json.str "b",
        Json.str "c", Json.str "d"]), ("values", Json.arr [Json.num 1, Json.num 2])]) =
      Except.ok (Json.obj [("categories", Json.arr [Json.str "a", Json.str "b"]),
        ("values", Json.arr [Json.num 1, Json.num 2])]) ∧
    (renderChart (Json.obj [("categories", Json.arr [Json.str "a", Json.str "b"]),
        ("values", Json.arr [Json.num 1, Json.num 2])])).isSome = true :=
  ⟨rfl, rfl, rfl⟩

/-- C3 counterexample: a topic whose sources value is the empty list keeps
it unchanged through normalization, so sources can be empty after
normalization and the backfill does not fire on a present-but-empty
list. -/
theorem c3_empty_sources_cx :
    ensureSources ["F1", "F2", "F3"]
        (Json.obj [("slides", Json.arr [Json.obj [("topics",
          Json.arr [Json.obj [("sources", Json.arr [])]])]])]) =
      Except.ok (Json.obj [("slides", Json.arr [Json.obj [("topics",
        Json.arr [Json.obj [("sources", Json.arr [])]])]])]) := rfl

/-- C3 (amended): for every dict topic, the backfill assigns the first two
facts (or the generic label when no facts exist) exactly when the sources
key is absent or its value not a list, and leaves the topic unchanged
otherwise; in particular an empty sources list survives normalization. -/
theorem c3_sources_backfill_amended :
    ∀ (facts : List String) (kvs : List (String × Json)),
      (isArrOpt (lookupKey kvs "sources") = true →
        fixTopic facts (Json.obj kvs) = Except.ok (Json.obj kvs)) ∧
      (isArrOpt (lookupKey kvs "sources") = false →
        fixTopic facts (Json.obj kvs) =
          Except.ok (Json.obj (setKey kvs "sources" (backfillSources facts)))) ∧
      backfillSources ["F1", "F2", "F3"] = Json.arr [Json.str "F1", Json.str "F2"] ∧
      backfillSources [] = Json.arr [Json.str "General industry reports"] := by
  intro facts kvs
  refine ⟨fun h => ?_, fun h => ?_, rfl, rfl⟩
  · simp [fixTopic, h]
  · simp [fixTopic, h]

/-- C3 witness: a topic without a sources key, backfilled from three facts,
receives exactly the first two. -/
theorem c3_sources_backfill_amended_w :
    fixTopic ["F1", "F2", "F3"] (Json.obj [("bullets", Json.arr [])]) =
      Except.ok (Json.obj [("bullets", Json.arr []),
        ("sources", Json.arr [Json.str "F1", Json.str "F2"])]) :=
  (c3_sources_backfill_amended ["F1", "F2", "F3"] [("bullets", Json.arr [])]).2.1 rfl

/-- C4 (code_bug): the polish response text whose slides field is the
number five parses successfully, but the sources backfill then raises a
TypeError iterating the non-sequence slides value, so malformed generation
output can crash the pipeline after the draft call. -/
theorem c4_malformed_slides_crash :
    safe_json_parse (some "\x7b\"slides\": 5\x7d") = Json.obj [("slides", Json.num 5)] ∧
    ensureSources ["F1"] (Json.obj [("slides", Json.num 5)]) = Except.error "TypeError" ∧
    polishContent (CallResult.content "\x7b\"slides\": 5\x7d") (sentinelDoc "") ["F1"] =
      Except.error "TypeError" :=
  ⟨rfl, rfl, rfl⟩

/-- C5 counterexample: a draft call whose response content is missing is
not a hard failure of the assembly; the sentinel draft is used and
generation returns normally (here the polish content access also fails, so
that sentinel draft itself is returned). -/
theorem c5_draft_content_failure_cx :
    generateContent "T" (CallResult.badContent "boom") (CallResult.badContent "p") ["F1"] =
      Except.ok (Json.obj [("title", Json.str "Parsing Failed"),
        ("overview", Json.str "Bad LLM response: boom"),
        ("slides", Json.arr []), ("conclusion", Json.str "")]) := rfl

/-- C5 (amended): with a non-empty topic, a polish-phase content-access
failure returns the unpolished draft; a transport-level exception is fatal
in either phase; and a draft-phase content-access failure is absorbed into
the sentinel draft after which assembly continues with the polish pass. -/
theorem c5_failure_semantics_amended :
    ∀ (topic : String) (dc p : CallResult) (facts : List String) (draft : Json)
      (e msg : String),
      ((pyStrip topic).data.isEmpty = false →
        callLlmAndParse dc = Except.ok draft →
        generateContent topic dc (CallResult.badContent msg) facts = Except.ok draft) ∧
      ((pyStrip topic).data.isEmpty = false →
        generateContent topic (CallResult.transportError e) p facts = Except.error e) ∧
      ((pyStrip topic).data.isEmpty = false →
        callLlmAndParse dc = Except.ok draft →
        generateContent topic dc (CallResult.transportError e) facts = Except.error e) ∧
      ((pyStrip topic).data.isEmpty = false →
        generateContent topic (CallResult.badContent msg) p facts =
          polishContent p (Json.obj
            [("title", Json.str "Parsing Failed"),
             ("overview", Json.str ("Bad LLM response: " ++ msg)),
             ("slides", Json.arr []), ("conclusion", Json.str "")]) facts) := by
  intro topic dc p facts draft e msg
  refine ⟨fun ht hd => ?_, fun ht => ?_, fun ht hd => ?_, fun ht => ?_⟩
  · simp [generateContent, ht, hd, polishContent]
  · simp [generateContent, ht, callLlmAndParse]
  · simp [generateContent, ht, hd, polishContent]
  · simp [generateContent, ht, callLlmAndParse]

/-- C5 witness: a concrete run in which the draft parses an empty object
and the polish content access fails, returning the draft unchanged. -/
theorem c5_failure_semantics_amended_w :
    generateContent "T" (CallResult.content "\x7b\x7d") (CallResult.badContent "m") [] =
      Except.ok (Json.obj []) :=
  (c5_failure_semantics_amended "T" (CallResult.content "\x7b\x7d")
    (CallResult.badContent "m") [] (Json.obj []) "e" "m").1 rfl rfl

/-- C7 (confirmed): repairing a document text that is valid JSON except
for one trailing comma before the closing brace succeeds through the
span-and-comma-strip fallback and yields the document without the trailing
comma. -/
theorem c7_trailing_comma_repair :
    safe_json_parse (some
        "\x7b\"title\":\"T\",\"overview\":\"O\",\"slides\":[],\"conclusion\":\"C\",\x7d") =
      Json.obj [("title", Json.str "T"), ("overview", Json.str "O"),
        ("slides", Json.arr []), ("conclusion", Json.str "C")] := rfl

/-- C6 (confirmed): for a chart whose values list is non-empty and whose
categories are absent or the empty list, the renderer synthesizes the
categories Item 1 through Item N, where N is the number of values, and the
chart is rendered rather than skipped. -/
theorem c6_categories_synthesized :
    ∀ (kvs : List (String × Json)) (vs : List Json),
      vs ≠ [] →
      lookupKey kvs "values" = some (Json.arr vs) →
      (lookupKey kvs "categories" = none ∨
        lookupKey kvs "categories" = some (Json.arr [])) →
      renderChart (Json.obj kvs) =
        some { categories := Json.arr (mkItems vs.length), values := Json.arr vs,
               seriesTitle := (lookupKey kvs "title").getD (Json.str "Series"),
               isBar := chartIsBar kvs } := by
  intro kvs vs hne hv hc
  have hvt : pyTruthy (Json.arr vs) = true := by
    cases vs with
    | nil => exact absurd rfl hne
    | cons a l => rfl
  have hlen : 1 ≤ vs.length := by
    cases vs with
    | nil => exact absurd rfl hne
    | cons a l => simp
  have hmk : pyTruthy (Json.arr (mkItems vs.length)) = true := mkItems_truthy _ hlen
  have hplv : pyLen (Json.arr vs) = Except.ok vs.length := rfl
  have hc0 : (lookupKey kvs "categories").getD (Json.arr []) = Json.arr [] := by
    rcases hc with hc | hc <;> simp [hc]
  have hv0 : (lookupKey kvs "values").getD (Json.arr []) = Json.arr vs := by simp [hv]
  have hcond1 : (pyTruthy (Json.arr vs) && !pyTruthy (Json.arr ([] : List Json))) = true := by
    rw [hvt]
    rfl
  simp only [renderChart, renderChartE, hv0, hc0, hcond1, if_true, hplv, hmk, hvt,
    pyLen_mkItems, Bool.not_true, Bool.or_self, Bool.false_eq_true, if_false]
  simp [show pyTruthy (Json.arr ([] : List Json)) = false from rfl, hmk, pyLen_mkItems]

/-- C6 witness: three values and no categories render with the synthesized
labels Item 1, Item 2, Item 3. -/
theorem c6_categories_synthesized_w :
    renderChart (Json.obj [("values", Json.arr [Json.num 1, Json.num 2, Json.num 3])]) =
      some { categories := Json.arr [Json.str "Item 1", Json.str "Item 2", Json.str "Item 3"],
             values := Json.arr [Json.num 1, Json.num 2, Json.num 3],
             seriesTitle := Json.str "Series", isBar := false } := by
  have h := c6_categories_synthesized
    [("values", Json.arr [Json.num 1, Json.num 2, Json.num 3])]
    [Json.num 1, Json.num 2, Json.num 3] (List.cons_ne_nil _ _) rfl (Or.inl rfl)
  exact h

/-- C8 (confirmed): the normalization passes are idempotent; re-running
the topic coercion and sources backfill on its own successful output
changes nothing, and the chart synthesis and alignment fixer likewise
returns its own successful output unchanged. -/
theorem c8_normalization_idempotent :
    (∀ (facts : List String) (j j2 : Json),
      ensureSources facts j = Except.ok j2 → ensureSources facts j2 = Except.ok j2) ∧
    (∀ c c2 : Json, chartAutoFix c = Except.ok c2 → chartAutoFix c2 = Except.ok c2) :=
  ⟨ensureSources_idem, chartAutoFix_idem⟩

/-- C8 witness: normalizing a one-slide document without topics inserts an
empty topics list, and a second normalization returns that document
unchanged. -/
theorem c8_normalization_idempotent_w :
    ensureSources [] (Json.obj [("slides", Json.arr [Json.obj [("topics", Json.arr [])]])]) =
      Except.ok (Json.obj [("slides", Json.arr [Json.obj [("topics", Json.arr [])]])]) :=
  c8_normalization_idempotent.1 [] (Json.obj [("slides", Json.arr [Json.obj []])]) _ rfl

/-- C9 (confirmed): with a text conclusion field, the slide mapper appends
exactly one trailing descriptor titled Conclusion holding the conclusion
as its single bullet when the text is non-empty, and appends nothing when
it is empty. -/
theorem c9_conclusion_descriptor_iff :
    ∀ (kvs : List (String × Json)) (c : String) (base : List SlideDescriptor),
      lookupKey kvs "conclusion" = some (Json.str c) →
      mapDeckBase (Json.obj kvs) = Except.ok base →
      mapDeck (Json.obj kvs) =
        Except.ok (base ++ (if c = "" then [] else [conclusionDescriptor (Json.str c)])) := by
  intro kvs c base hc hb
  simp only [mapDeck, hb, hc, Option.getD_some]
  by_cases h0 : c = ""
  · subst h0
    have hf : pyTruthy (Json.str "") = false := rfl
    simp [hf]
  · have hd : c.data ≠ [] := by
      intro hnil
      apply h0
      cases c with
      | mk l =>
        cases (show l = [] from hnil)
        rfl
    have ht : pyTruthy (Json.str c) = true := by
      show (!c.data.isEmpty) = true
      cases hcd : c.data with
      | nil => exact absurd hcd hd
      | cons a l => rfl
    simp [ht, h0]

/-- C9 witness: a document whose only field is a non-empty conclusion maps
to the two base slides followed by exactly one Conclusion descriptor. -/
theorem c9_conclusion_descriptor_iff_w :
    mapDeck (Json.obj [("conclusion", Json.str "done")]) =
      Except.ok ([{ title := Json.str "Untitled Presentation", topics := [] },
        { title := Json.str "Overview", topics := [bulletsTopic [Json.str ""]] }] ++
        [conclusionDescriptor (Json.str "done")]) := by
  have h := c9_conclusion_descriptor_iff [("conclusion", Json.str "done")] "done"
    [{ title := Json.str "Untitled Presentation", topics := [] },
     { title := Json.str "Overview", topics := [bulletsTopic [Json.str ""]] }] rfl rfl
  simpa using h

/-- C10 (confirmed): the polish stage returns before the chart auto-fix
block, so whenever the polish pass succeeds its output carries exactly the
chart fields of the parsed polish response: the content-generator
normalization never modifies a chart. -/
theorem c10_charts_untouched :
    ∀ (raw : String) (draft : Json) (facts : List String) (j2 : Json),
      polishContent (CallResult.content raw) draft facts = Except.ok j2 →
      chartsOf j2 = chartsOf (polishParsed raw) := by
  intro raw draft facts j2 h
  exact ensureSources_charts facts (polishParsed raw) j2 h

/-- C10 witness: a polish response holding one chart normalizes with the
chart value untouched. -/
theorem c10_charts_untouched_w :
    chartsOf (Json.obj [("slides", Json.arr [Json.obj [("topics", Json.arr [Json.obj
        [("chart", Json.obj [("values", Json.arr [Json.num 1, Json.num 2])]),
         ("sources", Json.arr [Json.str "F1"])]])]])]) =
      chartsOf (polishParsed
        "\x7b\"slides\":[\x7b\"topics\":[\x7b\"chart\":\x7b\"values\":[1,2]\x7d\x7d]\x7d]\x7d") :=
  c10_charts_untouched _ (sentinelDoc "") ["F1"] _ rfl

end DeckGen
